import Mathlib

/-!
Shallow embedding of `game/core/self_game/criticizer.py` (the GameCriticizer
component of the NagaAgent self-game module) together with a verification of
its claimed behaviour: score normalization, satisfaction estimation, the
evaluation orchestrator, the batch runner and the history ledger.

Python runtime values that flow through the untyped parts of the code
(`json.loads` results, dataclass fields fed from `dict.get`) are modelled by
the dynamic value type `PyValue`.  Scores, which are Python floats holding
small decimal literals, are modelled by `ℚ`.
-/

set_option maxRecDepth 4096

namespace NagaCritic

/-- Dynamic Python value, as produced by `json.loads` and stored in the
untyped dataclass fields and metadata dictionaries. -/
inductive PyValue where
  | null
  | bool (b : Bool)
  | num (q : ℚ)
  | str (s : String)
  | arr (items : List PyValue)
  | obj (fields : List (String × PyValue))

/-- Python exception classes relevant to `_parse_critique_result`: the inner
handler catches `ValueError` and `KeyError` only, while `TypeError` escapes to
the outer handler. -/
inductive PyErr where
  | valueError
  | keyError
  | typeError
deriving DecidableEq

/-- Lookup in a Python dict modelled as an association list where a repeated
key keeps the last value (as `json.loads` does when building the dict). -/
def dictGet (fields : List (String × PyValue)) (k : String) : Option PyValue :=
  fields.foldl (fun acc kv => if kv.1 = k then some kv.2 else acc) none

/-- Python truthiness for `PyValue` (used by `metadata.get('error', False)`). -/
def pyTruthy : PyValue → Bool
  | .null => false
  | .bool b => b
  | .num q => q != 0
  | .str s => s != ""
  | .arr l => !l.isEmpty
  | .obj l => !l.isEmpty

/-- Named characters, so that brace and quote characters never appear as
literals in the source text. -/
def lbrace : Char := Char.ofNat 123

/-- Closing brace character. -/
def rbrace : Char := Char.ofNat 125

/-- Double quote character. -/
def dquote : Char := Char.ofNat 34

/-- Backslash character. -/
def bslash : Char := Char.ofNat 92

/-- Backtick character. -/
def btick : Char := Char.ofNat 96

/-- Whitespace as recognised by Python's `str.strip` and `re`'s ASCII range:
space, tab, newline, carriage return, vertical tab, form feed. -/
def isWsChar (c : Char) : Bool :=
  c = ' ' || c = '\t' || c = '\n' || c = '\r' || c = Char.ofNat 11 || c = Char.ofNat 12

/-- Whitespace accepted between JSON tokens by `json.loads`. -/
def isJsonWs (c : Char) : Bool :=
  c = ' ' || c = '\t' || c = '\n' || c = '\r'

/-- Drop leading JSON whitespace. -/
def skipJsonWs (l : List Char) : List Char := l.dropWhile isJsonWs

/-- Drop leading regex whitespace. -/
def skipWsL (l : List Char) : List Char := l.dropWhile isWsChar

/-- Python `str.strip()`: drop leading and trailing whitespace. -/
def pyStrip (l : List Char) : List Char :=
  ((l.dropWhile isWsChar).reverse.dropWhile isWsChar).reverse

/-- Value of a decimal digit string. -/
def digitsToNat (l : List Char) : ℕ := l.foldl (fun n c => n * 10 + (c.toNat - 48)) 0

/-- Value of a hexadecimal digit character. -/
def hexVal (c : Char) : Option ℕ :=
  if c.isDigit then some (c.toNat - 48)
  else if 'a' ≤ c ∧ c ≤ 'f' then some (c.toNat - 87)
  else if 'A' ≤ c ∧ c ≤ 'F' then some (c.toNat - 55)
  else none

/-- Python substring containment (`pat in hay`), on char lists. -/
def listHasInfix (pat : List Char) : List Char → Bool
  | [] => pat.isEmpty
  | l@(_ :: rest) => pat.isPrefixOf l || listHasInfix pat rest

/-- Python substring containment (`pat in hay`) on strings. -/
def strContains (hay pat : String) : Bool := listHasInfix pat.data hay.data

/-- JSON string body parser (after the opening quote), fuel-bounded.
Models the strict-mode `json.loads` string scanner: raw control characters
are rejected, the standard escapes and `\uXXXX` are accepted (surrogate-pair
recombination is not modelled; no claim exercises it). -/
def parseStrBody : ℕ → List Char → List Char → Option (String × List Char)
  | 0, _, _ => none
  | fuel+1, acc, cs =>
    match cs with
    | [] => none
    | c :: rest =>
      if c = dquote then some (String.mk acc.reverse, rest)
      else if c = bslash then
        match rest with
        | [] => none
        | e :: r2 =>
          if e = dquote then parseStrBody fuel (dquote :: acc) r2
          else if e = bslash then parseStrBody fuel (bslash :: acc) r2
          else if e = '/' then parseStrBody fuel ('/' :: acc) r2
          else if e = 'n' then parseStrBody fuel ('\n' :: acc) r2
          else if e = 't' then parseStrBody fuel ('\t' :: acc) r2
          else if e = 'r' then parseStrBody fuel ('\r' :: acc) r2
          else if e = 'b' then parseStrBody fuel (Char.ofNat 8 :: acc) r2
          else if e = 'f' then parseStrBody fuel (Char.ofNat 12 :: acc) r2
          else if e = 'u' then
            match r2 with
            | h1 :: h2 :: h3 :: h4 :: r3 =>
              match hexVal h1, hexVal h2, hexVal h3, hexVal h4 with
              | some a, some b2, some c3, some d4 =>
                parseStrBody fuel (Char.ofNat (((a * 16 + b2) * 16 + c3) * 16 + d4) :: acc) r3
              | _, _, _, _ => none
            | _ => none
          else none
      else if c.toNat < 32 then none
      else parseStrBody fuel (c :: acc) rest

/-- JSON number parser (strict grammar: `-? (0 | [1-9][0-9]*) (. [0-9]+)?
([eE] [+-]? [0-9]+)?`), starting at the first character of the number. -/
def parseNumFrom (cs : List Char) : Option (ℚ × List Char) :=
  let (neg, cs1) := match cs with
    | c :: r => if c = '-' then (true, r) else (false, cs)
    | [] => (false, ([] : List Char))
  let intDigits := cs1.takeWhile Char.isDigit
  let afterInt := cs1.dropWhile Char.isDigit
  if intDigits.isEmpty then none
  else if intDigits.length > 1 && intDigits.head? = some '0' then none
  else
    let step2 : Option (ℚ × List Char) :=
      match afterInt with
      | '.' :: r =>
        let fracDigits := r.takeWhile Char.isDigit
        if fracDigits.isEmpty then none
        else some ((digitsToNat intDigits : ℚ) + (digitsToNat fracDigits : ℚ) / (10:ℚ)^fracDigits.length,
                   r.dropWhile Char.isDigit)
      | _ => some ((digitsToNat intDigits : ℚ), afterInt)
    match step2 with
    | none => none
    | some (mant, rest2) =>
      let signed := if neg then -mant else mant
      match rest2 with
      | c :: r =>
        if c = 'e' || c = 'E' then
          let (eneg, r1) := match r with
            | c2 :: r2 => if c2 = '-' then (true, r2) else if c2 = '+' then (false, r2) else (false, r)
            | [] => (false, ([] : List Char))
          let eDigits := r1.takeWhile Char.isDigit
          if eDigits.isEmpty then none
          else some ((if eneg then signed / (10:ℚ)^(digitsToNat eDigits)
                      else signed * (10:ℚ)^(digitsToNat eDigits)),
                     r1.dropWhile Char.isDigit)
        else some (signed, rest2)
      | [] => some (signed, [])

mutual

/-- Fuel-bounded JSON value parser modelling `json.loads`'s grammar.
Fuel exhaustion (possible only for nesting deeper than the input length
budget) corresponds to Python's `RecursionError`, which the callers treat
exactly like any other parse failure. -/
def parseVal : ℕ → List Char → Option (PyValue × List Char)
  | 0, _ => none
  | fuel+1, cs =>
    match skipJsonWs cs with
    | [] => none
    | c :: rest =>
      if c = lbrace then
        match skipJsonWs rest with
        | c2 :: r2 => if c2 = rbrace then some (.obj [], r2) else parseObjLoop fuel [] (c2 :: r2)
        | [] => none
      else if c = '[' then
        match skipJsonWs rest with
        | c2 :: r2 => if c2 = ']' then some (.arr [], r2) else parseArrLoop fuel [] (c2 :: r2)
        | [] => none
      else if c = dquote then
        match parseStrBody (rest.length + 1) [] rest with
        | some (s, r) => some (.str s, r)
        | none => none
      else if c = 't' then
        if ['r', 'u', 'e'].isPrefixOf rest then some (.bool true, rest.drop 3) else none
      else if c = 'f' then
        if ['a', 'l', 's', 'e'].isPrefixOf rest then some (.bool false, rest.drop 4) else none
      else if c = 'n' then
        if ['u', 'l', 'l'].isPrefixOf rest then some (.null, rest.drop 3) else none
      else
        match parseNumFrom (c :: rest) with
        | some (q, r) => some (.num q, r)
        | none => none

/-- Member loop of the JSON object parser (invoked after a non-empty `{`). -/
def parseObjLoop : ℕ → List (String × PyValue) → List Char → Option (PyValue × List Char)
  | 0, _, _ => none
  | fuel+1, acc, cs =>
    match skipJsonWs cs with
    | c :: rest =>
      if c = dquote then
        match parseStrBody (rest.length + 1) [] rest with
        | some (k, r1) =>
          match skipJsonWs r1 with
          | c2 :: r2 =>
            if c2 = ':' then
              match parseVal fuel r2 with
              | some (v, r3) =>
                match skipJsonWs r3 with
                | c3 :: r4 =>
                  if c3 = ',' then parseObjLoop fuel (acc ++ [(k, v)]) r4
                  else if c3 = rbrace then some (.obj (acc ++ [(k, v)]), r4)
                  else none
                | [] => none
              | none => none
            else none
          | [] => none
        | none => none
      else none
    | [] => none

/-- Element loop of the JSON array parser (invoked after a non-empty `[`). -/
def parseArrLoop : ℕ → List PyValue → List Char → Option (PyValue × List Char)
  | 0, _, _ => none
  | fuel+1, acc, cs =>
    match parseVal fuel cs with
    | some (v, r) =>
      match skipJsonWs r with
      | c :: r2 =>
        if c = ',' then parseArrLoop fuel (acc ++ [v]) r2
        else if c = ']' then some (.arr (acc ++ [v]), r2)
        else none
      | [] => none
    | none => none

end

/-- Model of `json.loads`: parse one JSON value and require that only
whitespace follows; `none` models a raised `JSONDecodeError`. -/
def jsonLoads (s : String) : Option PyValue :=
  match parseVal (2 * s.length + 4) s.data with
  | some (v, rest) => if (skipJsonWs rest).isEmpty then some v else none
  | none => none

/-- The `CriticDimension` enumeration: six fixed quality axes, identified
externally by their Chinese label strings. -/
inductive CriticDimension where
  | INNOVATION
  | LOGIC
  | COMPLETENESS
  | FEASIBILITY
  | QUALITY
  | RELEVANCE
deriving DecidableEq

/-- External label string of a dimension (the Python enum member value). -/
def CriticDimension.value : CriticDimension → String
  | .INNOVATION => "创新性"
  | .LOGIC => "逻辑性"
  | .COMPLETENESS => "完整性"
  | .FEASIBILITY => "可行性"
  | .QUALITY => "质量"
  | .RELEVANCE => "相关性"

/-- Members of `CriticDimension` in definition order (Python enum iteration
order). -/
def CriticDimension.all : List CriticDimension :=
  [.INNOVATION, .LOGIC, .COMPLETENESS, .FEASIBILITY, .QUALITY, .RELEVANCE]

/-- Lookup by label, modelling the Python enum call `CriticDimension(s)`
minus the exception (handled by `dimOfPyValue`). -/
def CriticDimension.ofValue (s : String) : Option CriticDimension :=
  CriticDimension.all.find? (fun d => d.value == s)

/-- The `CriticScore` dataclass.  `reasoning` and `suggestions` are annotated
`str` and `List[str]` in Python but at runtime hold whatever `dict.get`
returned, hence `PyValue` here. -/
structure CriticScore where
  dimension : CriticDimension
  score : ℚ
  reasoning : PyValue
  suggestions : PyValue

/-- The `CriticOutput` dataclass. -/
structure CriticOutput where
  target_output_id : String
  critic_agent_id : String
  overall_score : ℚ
  satisfaction_score : ℚ
  dimension_scores : List CriticScore
  summary_critique : PyValue
  improvement_suggestions : PyValue
  critique_time : ℚ
  iteration : ℕ
  metadata : List (String × PyValue)

/-- Modelled from the spec: the evaluator-identity collaborator (the `Agent`
dataclass lives in `game/core/models/data_models.py`, outside this module):
id, display name, role label, persona text. -/
structure Agent where
  agent_id : String
  name : String
  role : String
  system_prompt : String

/-- Modelled from the spec: the task-context collaborator (the `Task`
dataclass): id, description, domain, optional requirement and constraint
lists (`[]` plays Python's falsy `None`/empty role). -/
structure Task where
  task_id : String
  description : String
  domain : String
  requirements : List String
  constraints : List String

/-- Modelled from the spec: the content-under-review collaborator (the
`ActorOutput` dataclass from `actor.py`): content text, producing identity,
iteration number, generation latency, metadata with at least a display
name. -/
structure ActorOutput where
  agent_id : String
  content : String
  iteration : ℕ
  generation_time : ℚ
  metadata : List (String × PyValue)

/-- Python `float(v)` on a dynamic value.  Numeric strings are parsed;
non-numeric strings raise `ValueError`; `None`, lists and dicts raise
`TypeError`; booleans coerce to 0/1. -/
def pyFloatOfString (s : String) : Option ℚ :=
  let cs := pyStrip s.data
  let (neg, cs1) := match cs with
    | c :: r => if c = '-' then (true, r) else if c = '+' then (false, r) else (false, cs)
    | [] => (false, ([] : List Char))
  let intDigits := cs1.takeWhile Char.isDigit
  let rest1 := cs1.dropWhile Char.isDigit
  let (fracDigits, rest2) := match rest1 with
    | c :: r => if c = '.' then (r.takeWhile Char.isDigit, r.dropWhile Char.isDigit) else (([] : List Char), rest1)
    | [] => (([] : List Char), ([] : List Char))
  if intDigits.isEmpty && fracDigits.isEmpty then none
  else
    let mant : ℚ := (digitsToNat intDigits : ℚ) + (digitsToNat fracDigits : ℚ) / (10:ℚ)^fracDigits.length
    let signed := if neg then -mant else mant
    match rest2 with
    | [] => some signed
    | c :: r =>
      if c = 'e' || c = 'E' then
        let (eneg, r1) := match r with
          | c2 :: r2 => if c2 = '-' then (true, r2) else if c2 = '+' then (false, r2) else (false, r)
          | [] => (false, ([] : List Char))
        let eDigits := r1.takeWhile Char.isDigit
        if eDigits.isEmpty || !(r1.dropWhile Char.isDigit).isEmpty then none
        else some (if eneg then signed / (10:ℚ)^(digitsToNat eDigits) else signed * (10:ℚ)^(digitsToNat eDigits))
      else none

/-- Python `float(v)` classified by outcome (`inf`/`nan` spellings and digit
underscores are not modelled; no claim exercises them). -/
def pyFloat : PyValue → Except PyErr ℚ
  | .num q => .ok q
  | .bool b => .ok (if b then 1 else 0)
  | .str s =>
    match pyFloatOfString s with
    | some q => .ok q
    | none => .error .valueError
  | .null => .error .typeError
  | .arr _ => .error .typeError
  | .obj _ => .error .typeError

/-- Python `CriticDimension(v)` classified by outcome: unknown hashable
values raise `ValueError` (caught by the per-entry handler), unhashable
values (lists, dicts) raise `TypeError` (uncaught). -/
def dimOfPyValue : PyValue → Except PyErr CriticDimension
  | .str s =>
    match CriticDimension.ofValue s with
    | some d => .ok d
    | none => .error .valueError
  | .arr _ => .error .typeError
  | .obj _ => .error .typeError
  | _ => .error .valueError

/-- Python iteration over the `dimension_scores` value: lists yield their
elements, strings yield one-character strings, dicts yield their keys, and
everything else raises `TypeError`. -/
def iterEntries : PyValue → Except PyErr (List PyValue)
  | .arr l => .ok l
  | .str s => .ok (s.data.map (fun c => PyValue.str (String.mk [c])))
  | .obj fields => .ok (fields.map (fun kv => PyValue.str kv.1))
  | _ => .error .typeError

/-- One iteration of the `dimension_scores` loop in
`_parse_critique_result`: the inner `try` catches `ValueError`/`KeyError`
(returning `none` = entry skipped), while `TypeError` propagates. -/
def parse_dimension_entry : PyValue → Except PyErr (Option CriticScore)
  | .obj fs =>
    match dictGet fs "dimension" with
    | none => .ok none
    | some dv =>
      match dimOfPyValue dv with
      | .error .valueError => .ok none
      | .error .keyError => .ok none
      | .error .typeError => .error .typeError
      | .ok dim =>
        match dictGet fs "score" with
        | none => .ok none
        | some sv =>
          match pyFloat sv with
          | .error .valueError => .ok none
          | .error .keyError => .ok none
          | .error .typeError => .error .typeError
          | .ok q =>
            .ok (some { dimension := dim, score := q,
                        reasoning := (dictGet fs "reasoning").getD (.str ""),
                        suggestions := (dictGet fs "suggestions").getD (.arr []) })
  | _ => .error .typeError

/-- The `dimension_scores` loop over a list of entries, in order; the first
uncaught exception aborts the whole parse. -/
def parse_dim_list : List PyValue → Except PyErr (List CriticScore)
  | [] => .ok []
  | e :: rest =>
    match parse_dimension_entry e with
    | .error er => .error er
    | .ok s? =>
      match parse_dim_list rest with
      | .error er => .error er
      | .ok others => .ok (match s? with | some s => s :: others | none => others)

/-- The `'dimension_scores' in data` guard plus the entry loop. -/
def parse_dims_field (fs : List (String × PyValue)) : Except PyErr (List CriticScore) :=
  match dictGet fs "dimension_scores" with
  | none => .ok []
  | some v =>
    match iterEntries v with
    | .error er => .error er
    | .ok entries => parse_dim_list entries

/-- Body of `_parse_critique_result` after `json.loads` succeeded: dimension
loop, then `float(data.get('overall_score', 7.0))`, then the two defaulted
narrative fields.  Non-dict payloads fail with an uncaught exception when
indexed. -/
def parse_data (data : PyValue) : Except PyErr (List CriticScore × ℚ × PyValue × PyValue) :=
  match data with
  | .obj fs =>
    match parse_dims_field fs with
    | .error er => .error er
    | .ok dims =>
      match pyFloat ((dictGet fs "overall_score").getD (.num 7)) with
      | .error er => .error er
      | .ok overall =>
        .ok (dims, overall,
             (dictGet fs "summary_critique").getD (.str "批判解析失败"),
             (dictGet fs "improvement_suggestions").getD (.arr []))
  | _ => .error .typeError

/-- Model of `_get_default_critique_result`: one 7.0-scored entry per dimension plus
the fixed fallback narrative. -/
def get_default_critique_result : List CriticScore × ℚ × PyValue × PyValue :=
  (CriticDimension.all.map (fun d =>
     { dimension := d, score := 7,
       reasoning := .str ("默认" ++ d.value ++ "评分"),
       suggestions := .arr [.str ("改进" ++ d.value ++ "相关方面")] }),
   7,
   .str "批判分析过程出现问题,使用默认评分",
   .arr [.str "建议重新进行详细分析", .str "优化内容质量", .str "加强专业性"])

/-- Check whether a triple-backtick fence follows (after optional
whitespace), for the closing side of the fenced-JSON regex. -/
def fenceFollows (l : List Char) : Bool :=
  [btick, btick, btick].isPrefixOf (skipWsL l)

/-- Lazy `\{.*?\}` matching: scan forward for the first closing brace that is
followed by whitespace and a closing fence; `acc` holds the reversed body
matched so far. -/
def findLazyClose (acc : List Char) : List Char → Option (List Char)
  | [] => none
  | c :: rest =>
    if c = rbrace && fenceFollows rest then some ((c :: acc).reverse)
    else findLazyClose (c :: acc) rest

/-- Leading tag of a fenced JSON block. -/
def jsonFenceTag : List Char := [btick, btick, btick, 'j', 's', 'o', 'n']

/-- Search for the fenced-JSON regex from each start position in turn
(leftmost match, lazy body), returning the captured `{...}` group. -/
def find_fenced_json : List Char → Option (List Char)
  | [] => none
  | l@(_ :: rest) =>
    (if jsonFenceTag.isPrefixOf l then
       match skipWsL (l.drop jsonFenceTag.length) with
       | c :: body => if c = lbrace then findLazyClose [c] body else none
       | [] => none
     else none) <|> find_fenced_json rest

/-- Index of the last occurrence of a character (Python `str.rfind`). -/
def findLastIdxOf (l : List Char) (c : Char) : Option ℕ :=
  match l.reverse.findIdx? (fun x => x = c) with
  | some j => some (l.length - 1 - j)
  | none => none

/-- The extraction chain of `_parse_critique_result`: fenced JSON block if
the regex matches, else the stripped text as-is when it starts with a brace,
else the substring from the first `{` to the last `}` when that span is
non-empty, else the stripped text. -/
def extract_json_str (critique_result : String) : String :=
  match find_fenced_json critique_result.data with
  | some grp => String.mk grp
  | none =>
    let t := pyStrip critique_result.data
    if t.head? = some lbrace then String.mk t
    else
      let start : ℤ := match t.findIdx? (fun c => c = lbrace) with
        | some i => (i : ℤ)
        | none => -1
      let stop : ℤ := (match findLastIdxOf t rbrace with
        | some i => (i : ℤ)
        | none => -1) + 1
      if start ≠ -1 ∧ start < stop then
        String.mk ((t.drop start.toNat).take (stop - start).toNat)
      else String.mk t

/-- Model of `_parse_critique_result` end to end: extract a JSON candidate, parse it,
normalize the payload; any raised exception (parse failure or an uncaught
exception in the body) is converted to the default result.  Total by
construction — the Python signature also receives `actor_output` and `task`,
which the body never uses. -/
def parse_critique_result (critique_result : String) : List CriticScore × ℚ × PyValue × PyValue :=
  match jsonLoads (extract_json_str critique_result) with
  | none => get_default_critique_result
  | some data =>
    match parse_data data with
    | .ok r => r
    | .error _ => get_default_critique_result

/-- Canned evaluation payload of the quality-analyst persona
(`mock_critiques["质量分析师"]`). -/
def mock_quality : String :=
  "\x7b\n" ++
  "  \"dimension_scores\": [\n" ++
  "    \x7b\"dimension\": \"创新性\", \"score\": 7.5, \"reasoning\": \"提出了一些新颖的想法,但缺乏突破性创新\", \"suggestions\": [\"探索更前沿的技术方案\", \"结合最新行业趋势\"]\x7d,\n" ++
  "    \x7b\"dimension\": \"逻辑性\", \"score\": 8.2, \"reasoning\": \"整体逻辑清晰,论证较为严密\", \"suggestions\": [\"加强因果关系论证\"]\x7d,\n" ++
  "    \x7b\"dimension\": \"完整性\", \"score\": 6.8, \"reasoning\": \"主要内容齐全,但部分细节有待补充\", \"suggestions\": [\"补充实施细节\", \"增加风险评估\"]\x7d,\n" ++
  "    \x7b\"dimension\": \"可行性\", \"score\": 7.0, \"reasoning\": \"方案基本可行,但需要考虑实际约束\", \"suggestions\": [\"评估资源需求\", \"制定分阶段实施计划\"]\x7d,\n" ++
  "    \x7b\"dimension\": \"质量\", \"score\": 7.8, \"reasoning\": \"专业水准良好,表达清晰\", \"suggestions\": [\"优化文档结构\", \"增加可视化元素\"]\x7d,\n" ++
  "    \x7b\"dimension\": \"相关性\", \"score\": 8.5, \"reasoning\": \"与任务需求高度匹配\", \"suggestions\": [\"进一步细化需求对应关系\"]\x7d\n" ++
  "  ],\n" ++
  "  \"overall_score\": 7.6,\n" ++
  "  \"summary_critique\": \"整体方案具有良好的专业基础和可行性,逻辑结构清晰,与任务需求匹配度高.主要优势在于专业性和相关性,但在创新性和完整性方面还有提升空间.建议加强前沿技术的探索,补充实施细节和风险评估.\",\n" ++
  "  \"improvement_suggestions\": [\"增加创新技术方案的探索\", \"补充详细的实施计划和时间线\", \"加入风险评估和应对策略\", \"优化文档结构和可读性\"]\n" ++
  "\x7d"

/-- Canned evaluation payload of the technical-reviewer persona
(`mock_critiques["技术评审"]`). -/
def mock_tech : String :=
  "\x7b\n" ++
  "  \"dimension_scores\": [\n" ++
  "    \x7b\"dimension\": \"创新性\", \"score\": 6.5, \"reasoning\": \"技术方案相对保守,创新点不够突出\", \"suggestions\": [\"引入新兴技术栈\", \"探索创新架构模式\"]\x7d,\n" ++
  "    \x7b\"dimension\": \"逻辑性\", \"score\": 8.8, \"reasoning\": \"技术逻辑严密,架构设计合理\", \"suggestions\": [\"完善异常处理逻辑\"]\x7d,\n" ++
  "    \x7b\"dimension\": \"完整性\", \"score\": 7.2, \"reasoning\": \"核心技术要素完备,但缺少部署和运维考虑\", \"suggestions\": [\"补充部署方案\", \"增加监控体系\"]\x7d,\n" ++
  "    \x7b\"dimension\": \"可行性\", \"score\": 8.0, \"reasoning\": \"技术方案成熟可靠,实施风险较低\", \"suggestions\": [\"评估性能瓶颈\", \"制定扩容策略\"]\x7d,\n" ++
  "    \x7b\"dimension\": \"质量\", \"score\": 7.5, \"reasoning\": \"技术文档规范,但可视化不足\", \"suggestions\": [\"增加架构图\", \"完善API文档\"]\x7d,\n" ++
  "    \x7b\"dimension\": \"相关性\", \"score\": 8.3, \"reasoning\": \"技术选型符合项目需求\", \"suggestions\": [\"优化技术栈匹配度\"]\x7d\n" ++
  "  ],\n" ++
  "  \"overall_score\": 7.7,\n" ++
  "  \"summary_critique\": \"技术方案整体稳健可靠,架构设计合理,逻辑严密.在可行性和相关性方面表现优秀,但创新性有待提升.建议引入更多前沿技术,完善部署运维方案,增强文档的可视化表达.\",\n" ++
  "  \"improvement_suggestions\": [\"探索微服务架构的创新实践\", \"补充完整的部署和运维方案\", \"增加系统架构图和流程图\", \"建立性能监控和告警体系\"]\n" ++
  "\x7d"

/-- Canned evaluation payload of the product-evaluator persona
(`mock_critiques["产品评估"]`). -/
def mock_product : String :=
  "\x7b\n" ++
  "  \"dimension_scores\": [\n" ++
  "    \x7b\"dimension\": \"创新性\", \"score\": 8.0, \"reasoning\": \"产品理念新颖,用户体验有创新点\", \"suggestions\": [\"深化差异化特性\", \"探索新交互模式\"]\x7d,\n" ++
  "    \x7b\"dimension\": \"逻辑性\", \"score\": 7.5, \"reasoning\": \"产品逻辑基本清晰,但部分流程需优化\", \"suggestions\": [\"简化用户操作流程\", \"优化信息架构\"]\x7d,\n" ++
  "    \x7b\"dimension\": \"完整性\", \"score\": 6.9, \"reasoning\": \"核心功能完备,但缺少边界场景考虑\", \"suggestions\": [\"补充异常场景处理\", \"完善用户反馈机制\"]\x7d,\n" ++
  "    \x7b\"dimension\": \"可行性\", \"score\": 7.8, \"reasoning\": \"产品方案可行,符合市场需求\", \"suggestions\": [\"评估开发成本\", \"制定MVP方案\"]\x7d,\n" ++
  "    \x7b\"dimension\": \"质量\", \"score\": 7.3, \"reasoning\": \"产品设计专业,但细节需打磨\", \"suggestions\": [\"优化界面设计\", \"完善交互细节\"]\x7d,\n" ++
  "    \x7b\"dimension\": \"相关性\", \"score\": 8.7, \"reasoning\": \"高度符合用户需求和市场定位\", \"suggestions\": [\"加强用户画像分析\"]\x7d\n" ++
  "  ],\n" ++
  "  \"overall_score\": 7.7,\n" ++
  "  \"summary_critique\": \"产品方案创新性较强,市场定位准确,用户需求匹配度高.在创新性和相关性方面表现突出,但在完整性和细节打磨方面需要加强.建议深化产品差异化特性,完善边界场景处理,优化用户体验细节.\",\n" ++
  "  \"improvement_suggestions\": [\"深化产品差异化竞争优势\", \"完善用户场景和边界情况处理\", \"优化产品原型和交互设计\", \"建立用户反馈和迭代机制\"]\n" ++
  "\x7d"

/-- Persona table of `_generate_mock_critique`, in Python dict insertion
order. -/
def mock_table : List (String × String) :=
  [("质量分析师", mock_quality), ("技术评审", mock_tech), ("产品评估", mock_product)]

/-- Part of the default canned payload before the `critic_agent.role`
interpolation. -/
def mock_default_pre : String :=
  "\x7b\n" ++
  "  \"dimension_scores\": [\n" ++
  "    \x7b\"dimension\": \"创新性\", \"score\": 7.0, \"reasoning\": \"具有一定创新性,但突破性不够\", \"suggestions\": [\"探索更具突破性的方案\"]\x7d,\n" ++
  "    \x7b\"dimension\": \"逻辑性\", \"score\": 7.5, \"reasoning\": \"逻辑基本清晰,论证较为合理\", \"suggestions\": [\"加强逻辑链条的完整性\"]\x7d,\n" ++
  "    \x7b\"dimension\": \"完整性\", \"score\": 6.8, \"reasoning\": \"主要内容完备,细节有待补充\", \"suggestions\": [\"补充实施细节和边界情况\"]\x7d,\n" ++
  "    \x7b\"dimension\": \"可行性\", \"score\": 7.2, \"reasoning\": \"方案基本可行,需考虑实际约束\", \"suggestions\": [\"评估实施难度和资源需求\"]\x7d,\n" ++
  "    \x7b\"dimension\": \"质量\", \"score\": 7.3, \"reasoning\": \"专业水准良好,表达清晰\", \"suggestions\": [\"优化内容结构和表达方式\"]\x7d,\n" ++
  "    \x7b\"dimension\": \"相关性\", \"score\": 8.0, \"reasoning\": \"与任务需求匹配度较高\", \"suggestions\": [\"进一步对齐具体需求\"]\x7d\n" ++
  "  ],\n" ++
  "  \"overall_score\": 7.3,\n" ++
  "  \"summary_critique\": \"作为"

/-- Part of the default canned payload after the `critic_agent.role`
interpolation. -/
def mock_default_post : String :=
  ",我认为这个方案整体质量良好,与任务需求匹配度高,逻辑结构基本清晰.主要优势在于相关性和专业性,但在创新性和完整性方面还有改进空间.建议加强突破性思维,完善实施细节.\",\n" ++
  "  \"improvement_suggestions\": [\"增强方案的创新性和前瞻性\", \"补充详细的实施计划和风险评估\", \"优化内容结构和表达质量\", \"加强与任务需求的精确对应\"]\n" ++
  "\x7d"

/-- Model of `_generate_mock_critique`: pick the first persona whose key occurs in the
evaluator's name or role, else the generic payload with the role
interpolated. -/
def generate_mock_critique (critic_agent : Agent) : String :=
  match mock_table.find? (fun kv => strContains critic_agent.name kv.1 || strContains critic_agent.role kv.1) with
  | some kv => kv.2
  | none => mock_default_pre ++ critic_agent.role ++ mock_default_post

/-- Model of `_call_llm_for_critique`: absent collaborator falls back to the simulated
evaluator; a successful response is stripped; an exception raised by the
collaborator is caught locally and also falls back to the simulated
evaluator.  The collaborator is `get_response` modelled as a function from
the prompt to a result or a raised exception (the fixed temperature is
dropped). -/
def call_llm_for_critique (naga_conversation : Option (String → Except String String))
    (prompt : String) (critic_agent : Agent) : String :=
  match naga_conversation with
  | none => generate_mock_critique critic_agent
  | some get_response =>
    match get_response prompt with
    | .ok response => String.mk (pyStrip response.data)
    | .error _ => generate_mock_critique critic_agent

/-- Left-pad a number with zeros to the given width. -/
def natPad (n : ℕ) (width : ℕ) : String :=
  let s := toString n
  String.mk (List.replicate (width - s.length) '0') ++ s

/-- Fixed-point rendering of a score, modelling Python's `:.1f` / `:.2f`
format on floats (rounding is approximated as half-up; the claims never
depend on the prompt text). -/
def fmtFixed (q : ℚ) (prec : ℕ) : String :=
  let scaled : ℤ := ⌊q * (10:ℚ)^prec + 1/2⌋
  let sgn := if scaled < 0 then "-" else ""
  let n := scaled.natAbs
  if prec = 0 then sgn ++ toString (n : ℕ)
  else sgn ++ toString (n / 10^prec) ++ "." ++ natPad (n % 10^prec) prec

/-- Rendering of a dynamic value inside an f-string (`str(v)`), approximated
for non-scalar values; only prompt cosmetics depend on it. -/
def pyToDisplay : PyValue → String
  | .str s => s
  | .num q => toString q
  | .bool b => if b then "True" else "False"
  | .null => "None"
  | .arr _ => "[...]"
  | .obj _ => "\x7b...\x7d"

/-- Python slice `[:100]` of the stored summary narrative (non-string
narratives, which can only arise from adversarial payloads, are rendered
approximately). -/
def strSlice100 (v : PyValue) : String :=
  match v with
  | .str s => String.mk (s.data.take 100)
  | _ => ""

/-- Last two elements of a list (Python `l[-2:]`). -/
def lastTwo {α : Type} (l : List α) : List α := l.drop (l.length - 2)

/-- Model of `_build_critique_prompt`: the prompt sections in source order, joined
with newlines. -/
def build_critique_prompt (actor_output : ActorOutput) (critic_agent : Agent)
    (task : Task) (previous_critiques : Option (List CriticOutput)) : String :=
  let base : List String :=
    ["# 批判专家身份\n" ++ critic_agent.system_prompt ++ "\n",
     "# 批判任务\n你需要对以下内容进行专业的多维度批判分析:\n",
     "## 原始任务背景\n",
     "- 任务ID:" ++ task.task_id ++ "\n",
     "- 任务描述:" ++ task.description ++ "\n",
     "- 任务领域:" ++ task.domain ++ "\n"]
  let reqs := if !task.requirements.isEmpty
    then ["- 任务需求:" ++ String.intercalate "、" task.requirements ++ "\n"] else []
  let cons := if !task.constraints.isEmpty
    then ["- 约束条件:" ++ String.intercalate "、" task.constraints ++ "\n"] else []
  let content : List String :=
    ["\n## 待批判内容\n",
     "**作者**:" ++ pyToDisplay ((dictGet actor_output.metadata "agent_name").getD (.str "未知")) ++ "\n",
     "**迭代轮次**:第" ++ toString actor_output.iteration ++ "轮\n",
     "**生成时间**:" ++ fmtFixed actor_output.generation_time 2 ++ "秒\n",
     "**内容**:\n\x60\x60\x60\n" ++ actor_output.content ++ "\n\x60\x60\x60\n"]
  let hist : List String :=
    match previous_critiques with
    | some l@(_ :: _) =>
      ["\n## 历史批判参考\n"] ++
      ((lastTwo l).map (fun pc =>
        ["### 第" ++ toString pc.iteration ++ "轮批判:\n",
         "- 总体评分:" ++ fmtFixed pc.overall_score 1 ++ "/10\n",
         "- 主要意见:" ++ strSlice100 pc.summary_critique ++ "...\n"])).flatten
    | _ => []
  let dims : List String :=
    ["\n# 批判维度要求\n",
     "请从以下6个维度对内容进行评分（0-10分）和分析:\n",
     "1. **创新性**:内容是否具有新颖的思路和独特的见解\n",
     "2. **逻辑性**:论证是否严密,结构是否合理\n",
     "3. **完整性**:内容是否全面,是否遗漏重要方面\n",
     "4. **可行性**:方案是否具有实际操作性和可执行性\n",
     "5. **质量**:内容的专业水准和表达质量\n",
     "6. **相关性**:内容与任务需求的匹配程度\n"]
  let fmt : List String :=
    ["\n# 输出格式要求\n",
     "请严格按照以下JSON格式输出批判结果:\n",
     "\x60\x60\x60json\n",
     "\x7b\n",
     "  \"dimension_scores\": [\n",
     "    \x7b\"dimension\": \"创新性\", \"score\": 7.5, \"reasoning\": \"评分理由\", \"suggestions\": [\"建议1\", \"建议2\"]\x7d,\n",
     "    \x7b\"dimension\": \"逻辑性\", \"score\": 8.0, \"reasoning\": \"评分理由\", \"suggestions\": [\"建议1\"]\x7d,\n",
     "    ...\n",
     "  ],\n",
     "  \"overall_score\": 7.8,\n",
     "  \"summary_critique\": \"总体批判意见,包含主要优点和不足\",\n",
     "  \"improvement_suggestions\": [\"具体改进建议1\", \"具体改进建议2\", \"具体改进建议3\"]\n",
     "\x7d\n\x60\x60\x60\n"]
  let principles : List String :=
    ["\n# 批判原则\n",
     "1. **客观公正**:基于内容质量进行评价,避免主观偏见\n",
     "2. **建设性**:不仅指出问题,更要提供改进方向\n",
     "3. **专业性**:运用" ++ critic_agent.role ++ "的专业知识进行分析\n",
     "4. **针对性**:针对" ++ task.domain ++ "领域的特点进行评价\n",
     "5. **发展性**:考虑内容的发展潜力和优化空间\n"]
  String.intercalate "\n"
    (base ++ reqs ++ cons ++ content ++ hist ++ dims ++ fmt ++ principles ++
     ["\n请开始进行专业的批判分析:"])

/-- Python `min` on two floats. -/
def pyMin (a b : ℚ) : ℚ := if a ≤ b then a else b

/-- Python `max` on two floats. -/
def pyMax (a b : ℚ) : ℚ := if b ≤ a then a else b

/-- Inner loop of `_calculate_satisfaction_score`: the first score of the
previous critique for a given dimension (`break` after the first match). -/
def find_last_score : List CriticScore → CriticDimension → Option ℚ
  | [], _ => none
  | s :: rest, d => if s.dimension = d then some s.score else find_last_score rest d

/-- Outer loop of `_calculate_satisfaction_score`: for each current score,
the improvement over the previous critique's score on the same dimension,
skipping dimensions the previous critique did not score. -/
def collect_improvements (last_dims : List CriticScore) : List CriticScore → List ℚ
  | [] => []
  | c :: rest =>
    match find_last_score last_dims c.dimension with
    | some p => (c.score - p) :: collect_improvements last_dims rest
    | none => collect_improvements last_dims rest

/-- Model of `_calculate_satisfaction_score`: neutral 7.0 without a prior critique or
current scores; otherwise 7.0 plus the mean per-dimension improvement over
the immediately preceding critique, clamped to [0, 10] (7.0 again when no
dimension matches).  The defensive `except` of the source is unreachable on
well-typed data. -/
def calculate_satisfaction_score (previous_critiques : Option (List CriticOutput))
    (current_scores : List CriticScore) : ℚ :=
  match previous_critiques with
  | none => 7
  | some [] => 7
  | some (p :: ps) =>
    if current_scores.isEmpty then 7
    else
      let last_critique := (p :: ps).getLast (by simp)
      let improvements := collect_improvements last_critique.dimension_scores current_scores
      if improvements.isEmpty then 7
      else pyMax 0 (pyMin 10 (7 + improvements.sum / (improvements.length : ℚ)))

/-- Mutable state of a `GameCriticizer` instance: the collaborator handle,
the history ledger and the shared iteration counter. -/
structure CriticizerState where
  naga_conversation : Option (String → Except String String)
  critique_history : List CriticOutput
  current_iteration : ℕ

/-- First atomic step of `critique_output`: the counter increment at the top
of the method, which runs before the first suspension point (the
collaborator await). -/
def critique_phase1 (st : CriticizerState) : CriticizerState :=
  { st with current_iteration := st.current_iteration + 1 }

/-- Second atomic step of `critique_output`: everything after the
collaborator await — normalization, satisfaction, re-reading the shared
counter for the `iteration` field, and the history append (success path
only).  `fault` injects an exception raised inside the method's `try` block
but outside the inner handlers (Python can raise there on ill-typed data,
e.g. during prompt build); the `except` branch then builds the degraded
result and returns it without appending.  `elapsed` is the opaque wall-clock
delta. -/
def critique_phase2 (actor_output : ActorOutput) (critic_agent : Agent) (task : Task)
    (previous_critiques : Option (List CriticOutput)) (fault : Option String) (elapsed : ℚ)
    (st : CriticizerState) : CriticOutput × CriticizerState :=
  match fault with
  | some msg =>
    ({ target_output_id := actor_output.agent_id ++ "_" ++ toString actor_output.iteration,
       critic_agent_id := critic_agent.agent_id,
       overall_score := 5,
       satisfaction_score := 5,
       dimension_scores := [],
       summary_critique := .str ("批判过程出错:" ++ msg),
       improvement_suggestions := .arr [.str "建议重新进行批判分析"],
       critique_time := elapsed,
       iteration := st.current_iteration,
       metadata := [("error", .bool true), ("error_message", .str msg)] }, st)
  | none =>
    let critique_prompt := build_critique_prompt actor_output critic_agent task previous_critiques
    let critique_result := call_llm_for_critique st.naga_conversation critique_prompt critic_agent
    let parsed := parse_critique_result critique_result
    let satisfaction := calculate_satisfaction_score previous_critiques parsed.1
    let out : CriticOutput :=
      { target_output_id := actor_output.agent_id ++ "_" ++ toString actor_output.iteration,
        critic_agent_id := critic_agent.agent_id,
        overall_score := parsed.2.1,
        satisfaction_score := satisfaction,
        dimension_scores := parsed.1,
        summary_critique := parsed.2.2.1,
        improvement_suggestions := parsed.2.2.2,
        critique_time := elapsed,
        iteration := st.current_iteration,
        metadata := [("target_agent_name", (dictGet actor_output.metadata "agent_name").getD (.str "unknown")),
                     ("critic_agent_name", .str critic_agent.name),
                     ("task_domain", .str task.domain),
                     ("has_previous_critiques", .bool (match previous_critiques with
                        | some (_ :: _) => true
                        | _ => false)),
                     ("content_length", .num (actor_output.content.length : ℚ))] }
    (out, { st with critique_history := st.critique_history ++ [out] })

/-- Model of `critique_output` as one sequential call: increment, then the rest. -/
def critique_output (actor_output : ActorOutput) (critic_agent : Agent) (task : Task)
    (previous_critiques : Option (List CriticOutput)) (fault : Option String) (elapsed : ℚ)
    (st : CriticizerState) : CriticOutput × CriticizerState :=
  critique_phase2 actor_output critic_agent task previous_critiques fault elapsed
    (critique_phase1 st)

/-- Arguments of one `critique_output` call, for sequential runs. -/
structure CallArgs where
  actor_output : ActorOutput
  critic_agent : Agent
  task : Task
  previous_critiques : Option (List CriticOutput)
  fault : Option String
  elapsed : ℚ

/-- Sequential execution of a list of `critique_output` calls, threading the
state and collecting the returned results in call order. -/
def run_sequential : List CallArgs → CriticizerState → List CriticOutput × CriticizerState
  | [], st => ([], st)
  | a :: rest, st =>
    let r := critique_output a.actor_output a.critic_agent a.task a.previous_critiques
      a.fault a.elapsed st
    let rs := run_sequential rest r.2
    (r.1 :: rs.1, rs.2)

/-- The pair list built by `batch_critique`'s nested loops: the cross
product minus self-pairs, in enumeration order. -/
def batch_pairs (actor_outputs : List ActorOutput) (critic_agents : List Agent) :
    List (ActorOutput × Agent) :=
  (actor_outputs.map (fun o =>
    (critic_agents.filter (fun a => o.agent_id != a.agent_id)).map (fun a => (o, a)))).flatten

/-- Execution of the gathered pair tasks.  `asyncio.gather` returns results
in task order; each call is total, so the `isinstance(result, Exception)`
filter of the source keeps every result.  `fault` and `elapsed` supply the
per-call exception injection and wall-clock delta. -/
def run_pairs (task : Task) (fault : ActorOutput → Agent → Option String)
    (elapsed : ActorOutput → Agent → ℚ) :
    List (ActorOutput × Agent) → CriticizerState → List CriticOutput × CriticizerState
  | [], st => ([], st)
  | p :: ps, st =>
    let r := critique_output p.1 p.2 task none (fault p.1 p.2) (elapsed p.1 p.2) st
    let rs := run_pairs task fault elapsed ps r.2
    (r.1 :: rs.1, rs.2)

/-- Model of `batch_critique`: build the self-pair-free cross product and evaluate
every pair, never passing `previous_critiques`. -/
def batch_critique (actor_outputs : List ActorOutput) (critic_agents : List Agent)
    (task : Task) (fault : ActorOutput → Agent → Option String)
    (elapsed : ActorOutput → Agent → ℚ) (st : CriticizerState) :
    List CriticOutput × CriticizerState :=
  run_pairs task fault elapsed (batch_pairs actor_outputs critic_agents) st

/-- Model of `get_critique_statistics`: the empty-ledger branch returns the reduced
five-key dict; the non-empty branch returns the full eight-key dict, where
failed critiques are those whose metadata `error` entry is truthy. -/
def get_critique_statistics (st : CriticizerState) : List (String × PyValue) :=
  if st.critique_history.isEmpty then
    [("total_critiques", .num 0),
     ("average_overall_score", .num 0),
     ("average_satisfaction_score", .num 0),
     ("current_iteration", .num (st.current_iteration : ℚ)),
     ("api_available", .bool st.naga_conversation.isSome)]
  else
    let n : ℚ := (st.critique_history.length : ℚ)
    let successful := st.critique_history.filter
      (fun c => !(pyTruthy ((dictGet c.metadata "error").getD (.bool false))))
    [("total_critiques", .num n),
     ("successful_critiques", .num (successful.length : ℚ)),
     ("failed_critiques", .num ((st.critique_history.length - successful.length : ℕ) : ℚ)),
     ("average_overall_score", .num ((st.critique_history.map CriticOutput.overall_score).sum / n)),
     ("average_satisfaction_score", .num ((st.critique_history.map CriticOutput.satisfaction_score).sum / n)),
     ("current_iteration", .num (st.current_iteration : ℚ)),
     ("api_available", .bool st.naga_conversation.isSome),
     ("average_critique_time", .num ((st.critique_history.map CriticOutput.critique_time).sum / n))]

/-- Model of `get_latest_critique`. -/
def get_latest_critique (st : CriticizerState) : Option CriticOutput :=
  st.critique_history.getLast?

/-- Model of `clear_history`. -/
def clear_history (st : CriticizerState) : CriticizerState :=
  { st with critique_history := [], current_iteration := 0 }

/-! Theorems.  Each claim of the specification is settled below; helper
lemmas come first. -/

/-- Spec-side restatement of the satisfaction estimator, following the
specification's wording: take the immediately preceding evaluation, collect
`current − prior` for each current `DimensionScore` whose dimension the prior
evaluation scored, and return `clamp(7.0 + mean delta, 0, 10)`, with 7.0 for
the no-prior / no-current / no-delta cases. -/
def satisfactionSpec (previous : Option (List CriticOutput)) (current : List CriticScore) : ℚ :=
  match previous with
  | none => 7
  | some [] => 7
  | some (p :: ps) =>
    if current.isEmpty then 7
    else
      let prior := (p :: ps).getLast (by simp)
      let deltas := current.filterMap (fun c =>
        (prior.dimension_scores.find? (fun s => decide (s.dimension = c.dimension))).map
          (fun s => c.score - s.score))
      if deltas.isEmpty then 7
      else pyMax 0 (pyMin 10 (7 + deltas.sum / (deltas.length : ℚ)))

lemma find_last_score_eq_find (ld : List CriticScore) (d : CriticDimension) :
    find_last_score ld d =
      (ld.find? (fun s => decide (s.dimension = d))).map CriticScore.score := by
  induction ld with
  | nil => rfl
  | cons s rest ih =>
    by_cases h : s.dimension = d
    · simp [find_last_score, List.find?_cons, h]
    · simp [find_last_score, List.find?_cons, h, ih]

lemma collect_improvements_eq (ld : List CriticScore) (cur : List CriticScore) :
    collect_improvements ld cur =
      cur.filterMap (fun c =>
        (ld.find? (fun s => decide (s.dimension = c.dimension))).map
          (fun s => c.score - s.score)) := by
  induction cur with
  | nil => rfl
  | cons c rest ih =>
    cases h : ld.find? (fun s => decide (s.dimension = c.dimension)) with
    | none => simp [collect_improvements, find_last_score_eq_find, h, List.filterMap_cons, ih]
    | some s => simp [collect_improvements, find_last_score_eq_find, h, List.filterMap_cons, ih]

/-- C2: the satisfaction estimator returns 7.0 without a prior evaluation or
current scores, and otherwise clamps 7.0 plus the mean per-dimension delta
against the immediately preceding evaluation into [0, 10]; in particular a
single matching dimension with prior 8.0 and current 2.0 yields 1.0. -/
theorem C2_theorem :
    (∀ (previous : Option (List CriticOutput)) (current : List CriticScore),
       calculate_satisfaction_score previous current = satisfactionSpec previous current) ∧
    calculate_satisfaction_score
      (some [{ target_output_id := "t", critic_agent_id := "c", overall_score := 8,
               satisfaction_score := 7,
               dimension_scores := [⟨.INNOVATION, 8, .str "", .arr []⟩],
               summary_critique := .str "", improvement_suggestions := .arr [],
               critique_time := 0, iteration := 1, metadata := [] }])
      [⟨.INNOVATION, 2, .str "", .arr []⟩] = 1 := by
  constructor
  · intro previous current
    match previous with
    | none => rfl
    | some [] => rfl
    | some (p :: ps) =>
      simp only [calculate_satisfaction_score, satisfactionSpec, collect_improvements_eq]
  · simp only [calculate_satisfaction_score]
    norm_num [collect_improvements, find_last_score, pyMin, pyMax]

/-- C3: whenever the extraction-then-parse chain fails on the raw text, the
normalizer returns the fixed default result: one 7.0-scored entry per known
dimension in order, overall score 7.0 and the fixed fallback narrative (and
it cannot raise, being total). -/
theorem C3_theorem (s : String) (h : jsonLoads (extract_json_str s) = none) :
    (parse_critique_result s).1.map CriticScore.dimension = CriticDimension.all ∧
    ((parse_critique_result s).1.all (fun cs => cs.score == 7)) = true ∧
    (parse_critique_result s).2.1 = 7 ∧
    (parse_critique_result s).2.2.1 = PyValue.str "批判分析过程出现问题,使用默认评分" := by
  have e : parse_critique_result s = get_default_critique_result := by
    unfold parse_critique_result
    rw [h]
  rw [e]
  exact ⟨rfl, rfl, rfl, rfl⟩

/-- Witness for C3 at the concrete malformed input `"not json"`. -/
theorem C3_witness :
    (parse_critique_result "not json").1.map CriticScore.dimension = CriticDimension.all ∧
    ((parse_critique_result "not json").1.all (fun cs => cs.score == 7)) = true ∧
    (parse_critique_result "not json").2.1 = 7 ∧
    (parse_critique_result "not json").2.2.1 = PyValue.str "批判分析过程出现问题,使用默认评分" :=
  C3_theorem "not json" (by rfl)

/-- Concrete content under review, for counterexamples and witnesses. -/
def exActor : ActorOutput := ⟨"agent_a", "一段待评审的内容", 1, 1, []⟩

/-- Concrete evaluator whose name and role match no simulated persona. -/
def exAgent : Agent := ⟨"agent_b", "评审员甲", "通用", "你是一名评审"⟩

/-- Concrete evaluator sharing `exActor`'s producing identity. -/
def exAgentSame : Agent := ⟨"agent_a", "评审员乙", "通用", "你是一名评审"⟩

/-- Concrete task context. -/
def exTask : Task := ⟨"task_1", "写一个方案", "通用领域", [], []⟩

/-- Counterexample to C1: with a collaborator that raises on every call, an
exception does occur inside the pipeline (the collaborator call), yet the
returned result is not the degraded one — the exception is caught inside
`_call_llm_for_critique`, which substitutes the simulated evaluator, so the
satisfaction score is the neutral 7.0 (not 5.0) and the metadata carries no
`error` flag at all. -/
theorem C1_counterexample :
    (critique_output exActor exAgent exTask none none 0
      ⟨some (fun _ => Except.error "连接失败"), [], 0⟩).1.satisfaction_score = 7 ∧
    dictGet (critique_output exActor exAgent exTask none none 0
      ⟨some (fun _ => Except.error "连接失败"), [], 0⟩).1.metadata "error" = none := by
  exact ⟨rfl, rfl⟩

/-- C1 (amended): `critique_output` is total; an exception that reaches the
method's top-level handler yields the degraded result — overall and
satisfaction fixed at 5.0, empty dimension list, narrative containing the
error message, one generic suggestion, and metadata flagging the error — and
an exception raised by the collaborator call never reaches that handler: it
is absorbed inside `_call_llm_for_critique` by falling back to the simulated
evaluator. -/
theorem C1_amended_theorem :
    (∀ (ao : ActorOutput) (ca : Agent) (task : Task)
       (prev : Option (List CriticOutput)) (msg : String) (elapsed : ℚ)
       (st : CriticizerState),
       (critique_output ao ca task prev (some msg) elapsed st).1.overall_score = 5 ∧
       (critique_output ao ca task prev (some msg) elapsed st).1.satisfaction_score = 5 ∧
       (critique_output ao ca task prev (some msg) elapsed st).1.dimension_scores = [] ∧
       (critique_output ao ca task prev (some msg) elapsed st).1.summary_critique =
         .str ("批判过程出错:" ++ msg) ∧
       (critique_output ao ca task prev (some msg) elapsed st).1.improvement_suggestions =
         .arr [.str "建议重新进行批判分析"] ∧
       (critique_output ao ca task prev (some msg) elapsed st).1.metadata =
         [("error", .bool true), ("error_message", .str msg)]) ∧
    (∀ (f : String → Except String String) (prompt : String) (ca : Agent) (e : String),
       f prompt = .error e →
       call_llm_for_critique (some f) prompt ca = generate_mock_critique ca) := by
  constructor
  · intro ao ca task prev msg elapsed st
    exact ⟨rfl, rfl, rfl, rfl, rfl, rfl⟩
  · intro f prompt ca e h
    simp [call_llm_for_critique, h]

/-- Witness for C1 (amended) at concrete inputs: a degraded result from an
injected top-level exception, and the mock fallback for a collaborator that
raises. -/
theorem C1_witness :
    (critique_output exActor exAgent exTask none (some "出错") 0 ⟨none, [], 0⟩).1.overall_score = 5 ∧
    call_llm_for_critique (some (fun _ => Except.error "接口异常")) "提示词" exAgent =
      generate_mock_critique exAgent :=
  ⟨(C1_amended_theorem.1 exActor exAgent exTask none "出错" 0 ⟨none, [], 0⟩).1,
   C1_amended_theorem.2 (fun _ => Except.error "接口异常") "提示词" exAgent "接口异常" rfl⟩

/-- Counterexample to C4: on the failure path the degraded result is
returned without being appended — after a call whose pipeline raised, the
ledger is still empty (length 0, not 1), even though the call returned the
degraded result. -/
theorem C4_counterexample :
    (critique_output exActor exAgent exTask none (some "运行错误") 0
      ⟨none, [], 0⟩).2.critique_history = [] ∧
    (critique_output exActor exAgent exTask none (some "运行错误") 0
      ⟨none, [], 0⟩).1.metadata = [("error", .bool true), ("error_message", .str "运行错误")] := by
  exact ⟨rfl, rfl⟩

/-- C4 (amended): only the success path appends to the ledger — a successful
call appends exactly its returned result at the end, while a failed
(degraded-result) call leaves the ledger unchanged. -/
theorem C4_amended_theorem :
    (∀ (ao : ActorOutput) (ca : Agent) (task : Task)
       (prev : Option (List CriticOutput)) (elapsed : ℚ) (st : CriticizerState),
       (critique_output ao ca task prev none elapsed st).2.critique_history =
         st.critique_history ++ [(critique_output ao ca task prev none elapsed st).1]) ∧
    (∀ (ao : ActorOutput) (ca : Agent) (task : Task)
       (prev : Option (List CriticOutput)) (msg : String) (elapsed : ℚ) (st : CriticizerState),
       (critique_output ao ca task prev (some msg) elapsed st).2.critique_history =
         st.critique_history) := by
  constructor
  · intro ao ca task prev elapsed st
    rfl
  · intro ao ca task prev msg elapsed st
    rfl

lemma critique_output_iteration (ao : ActorOutput) (ca : Agent) (task : Task)
    (prev : Option (List CriticOutput)) (fault : Option String) (elapsed : ℚ)
    (st : CriticizerState) :
    (critique_output ao ca task prev fault elapsed st).1.iteration = st.current_iteration + 1 ∧
    (critique_output ao ca task prev fault elapsed st).2.current_iteration =
      st.current_iteration + 1 := by
  cases fault <;> exact ⟨rfl, rfl⟩

/-- C5 (amended): under sequential invocation every call increments the
shared counter by exactly one and the returned results carry the consecutive
iteration values starting after the initial counter; from a fresh
orchestrator, N calls record exactly 1..N.  (The concurrent half of the
original claim is refuted by `C5_counterexample`.) -/
theorem C5_amended_theorem :
    ∀ (calls : List CallArgs) (st : CriticizerState),
      (run_sequential calls st).2.current_iteration = st.current_iteration + calls.length ∧
      (run_sequential calls st).1.map CriticOutput.iteration =
        List.range' (st.current_iteration + 1) calls.length := by
  intro calls
  induction calls with
  | nil => intro st; simp [run_sequential]
  | cons a rest ih =>
    intro st
    have hcall := critique_output_iteration a.actor_output a.critic_agent a.task
      a.previous_critiques a.fault a.elapsed st
    have hrest := ih (critique_output a.actor_output a.critic_agent a.task
      a.previous_critiques a.fault a.elapsed st).2
    constructor
    · simp only [run_sequential, List.length_cons]
      rw [hrest.1, hcall.2]
      omega
    · simp only [run_sequential, List.map_cons, List.length_cons]
      conv_rhs => rw [List.range'_succ]
      rw [hcall.1, hrest.2, hcall.2]

/-- Counterexample to C5: the `iteration` field is read back from the shared
counter only after the collaborator await, so two concurrent calls
interleaved at that await (increment A, increment B, resume A, resume B) both
record iteration 2 — duplicate values instead of the claimed gap-free
{1, 2}. -/
theorem C5_counterexample :
    (critique_phase2 exActor exAgent exTask none none 0
      (critique_phase1 (critique_phase1
        ⟨some (fun _ => Except.ok "x"), [], 0⟩))).1.iteration = 2 ∧
    (critique_phase2 exActor exAgentSame exTask none none 0
      ((critique_phase2 exActor exAgent exTask none none 0
        (critique_phase1 (critique_phase1
          ⟨some (fun _ => Except.ok "x"), [], 0⟩))).2)).1.iteration = 2 := by
  exact ⟨rfl, rfl⟩

/-- Well-formedness of one `dimension_scores` entry as hypothesised by the
claim: a JSON object carrying a string `dimension` label and a numeric
`score`. -/
def C6Entry (e : PyValue) : Prop :=
  ∃ fs d q, e = PyValue.obj fs ∧ dictGet fs "dimension" = some (.str d) ∧
    dictGet fs "score" = some (.num q)

/-- Spec-side description of how one entry is normalized: map the label to a
known dimension or drop the entry, keep the score, default `reasoning` to
the empty string and `suggestions` to the empty list. -/
def specEntryScore (e : PyValue) : Option CriticScore :=
  match e with
  | .obj fs =>
    match dictGet fs "dimension", dictGet fs "score" with
    | some (.str d), some (.num q) =>
      match CriticDimension.ofValue d with
      | some dim => some { dimension := dim, score := q,
                           reasoning := (dictGet fs "reasoning").getD (.str ""),
                           suggestions := (dictGet fs "suggestions").getD (.arr []) }
      | none => none
    | _, _ => none
  | _ => none

lemma parse_entry_good (e : PyValue) (h : C6Entry e) :
    parse_dimension_entry e = .ok (specEntryScore e) := by
  obtain ⟨fs, d, q, rfl, hd, hq⟩ := h
  simp only [parse_dimension_entry, specEntryScore, hd, hq]
  cases hdim : CriticDimension.ofValue d <;> simp [dimOfPyValue, hdim, pyFloat]

lemma parse_dim_list_good (entries : List PyValue) (h : ∀ e ∈ entries, C6Entry e) :
    parse_dim_list entries = .ok (entries.filterMap specEntryScore) := by
  induction entries with
  | nil => rfl
  | cons e rest ih =>
    have he := parse_entry_good e (h e (by simp))
    have hrest := ih (fun x hx => h x (by simp [hx]))
    cases hs : specEntryScore e with
    | none => simp [parse_dim_list, he, hrest, hs, List.filterMap_cons]
    | some s => simp [parse_dim_list, he, hrest, hs, List.filterMap_cons]

lemma filterMap_length_of_isSome (entries : List PyValue)
    (h : ∀ e ∈ entries, (specEntryScore e).isSome) :
    (entries.filterMap specEntryScore).length = entries.length := by
  induction entries with
  | nil => rfl
  | cons e rest ih =>
    have he := h e (by simp)
    cases hs : specEntryScore e with
    | none => rw [hs] at he; simp at he
    | some s =>
      rw [List.filterMap_cons, hs]
      simp [ih (fun x hx => h x (by simp [hx]))]

/-- C6: on a parsed object whose `dimension_scores` entries each carry a
string label and a numeric score (and whose `overall_score`, when present,
coerces to a float), the normalizer keeps exactly the entries with known
labels, in order, with their scores preserved and `reasoning`/`suggestions`
defaulted when absent; unknown labels are dropped without error, and when
every label is known the entry count is preserved. -/
theorem C6_theorem (fs : List (String × PyValue)) (entries : List PyValue) (q0 : ℚ)
    (h1 : dictGet fs "dimension_scores" = some (.arr entries))
    (h2 : ∀ e ∈ entries, C6Entry e)
    (h3 : pyFloat ((dictGet fs "overall_score").getD (.num 7)) = .ok q0) :
    parse_data (.obj fs) = .ok (entries.filterMap specEntryScore, q0,
      (dictGet fs "summary_critique").getD (.str "批判解析失败"),
      (dictGet fs "improvement_suggestions").getD (.arr [])) ∧
    ((∀ e ∈ entries, (specEntryScore e).isSome) →
      (entries.filterMap specEntryScore).length = entries.length) := by
  constructor
  · simp only [parse_data, parse_dims_field, h1, iterEntries,
      parse_dim_list_good entries h2, h3]
  · intro hall
    exact filterMap_length_of_isSome entries hall

/-- Concrete well-formed entry with a known label. -/
def exEntryGood : PyValue := .obj [("dimension", .str "逻辑性"), ("score", .num 9)]

/-- Concrete entry with an unknown dimension label. -/
def exEntryUnknown : PyValue := .obj [("dimension", .str "神秘维度"), ("score", .num 1)]

/-- Concrete parsed payload for the C6 witness. -/
def exFields6 : List (String × PyValue) :=
  [("dimension_scores", .arr [exEntryGood, exEntryUnknown])]

/-- Witness for C6: the two-entry payload normalizes to the single
known-label entry with its score preserved and defaults applied. -/
theorem C6_witness :
    parse_data (.obj exFields6) =
      .ok ([{ dimension := .LOGIC, score := 9, reasoning := .str "", suggestions := .arr [] }],
           7, .str "批判解析失败", .arr []) :=
  (C6_theorem exFields6 [exEntryGood, exEntryUnknown] 7 rfl
    (by
      intro e he
      cases he with
      | head =>
        exact ⟨[("dimension", .str "逻辑性"), ("score", .num 9)], "逻辑性", 9, rfl, rfl, rfl⟩
      | tail _ h2 =>
        cases h2 with
        | head =>
          exact ⟨[("dimension", .str "神秘维度"), ("score", .num 1)], "神秘维度", 1, rfl, rfl, rfl⟩
        | tail _ h3 => cases h3)
    rfl).1

/-- Counterexample to C7: on an empty ledger the statistics dict omits the
successful/failed counts and the average elapsed time entirely (the claim
says the mapping contains them), even though the total count is present and
zero. -/
theorem C7_counterexample :
    dictGet (get_critique_statistics ⟨none, [], 0⟩) "successful_critiques" = none ∧
    dictGet (get_critique_statistics ⟨none, [], 0⟩) "failed_critiques" = none ∧
    dictGet (get_critique_statistics ⟨none, [], 0⟩) "average_critique_time" = none ∧
    dictGet (get_critique_statistics ⟨none, [], 0⟩) "total_critiques" = some (.num 0) := by
  exact ⟨rfl, rfl, rfl, rfl⟩

/-- C7 (amended): on an empty ledger `get_critique_statistics` returns,
without raising, exactly the five-entry dict: zero total, zero average
overall and satisfaction scores, the current iteration counter and the
collaborator-availability flag (successful/failed counts and average elapsed
time are omitted on this branch). -/
theorem C7_amended_theorem :
    ∀ (naga : Option (String → Except String String)) (iter : ℕ),
      get_critique_statistics ⟨naga, [], iter⟩ =
        [("total_critiques", .num 0),
         ("average_overall_score", .num 0),
         ("average_satisfaction_score", .num 0),
         ("current_iteration", .num (iter : ℚ)),
         ("api_available", .bool naga.isSome)] := by
  intro naga iter
  rfl

/-- Raw evaluator text whose parsed object carries one well-formed dimension
entry and an unparsable `overall_score`. -/
def sOverallBad : String :=
  "\x7b\"dimension_scores\": [\x7b\"dimension\": \"创新性\", \"score\": 3.0\x7d], \"overall_score\": \"abc\"\x7d"

/-- Counterexample to C8: when `overall_score` is present but unparsable, the
`float` call raises past the per-entry handler and the whole parse falls back
to the six-dimension default — the successfully parsed entry (创新性, 3.0) is
NOT left intact, contrary to the claim that only the affected top-level field
is defaulted. -/
theorem C8_counterexample :
    (parse_critique_result sOverallBad).1.map CriticScore.score = [7, 7, 7, 7, 7, 7] ∧
    (parse_critique_result sOverallBad).2.1 = 7 ∧
    (parse_critique_result sOverallBad).1 ≠
      [{ dimension := .INNOVATION, score := 3, reasoning := .str "", suggestions := .arr [] }] := by
  refine ⟨rfl, rfl, ?_⟩
  intro h
  have h6 : (parse_critique_result sOverallBad).1.length = 6 := rfl
  rw [h] at h6
  simp at h6

/-- C8 (amended): the normalizer defaults `overall_score` to 7.0, the
narrative to its fixed placeholder and the suggestion list to `[]` only when
the respective key is ABSENT, leaving the parsed dimension entries intact;
when `overall_score` is present but unparsable, the error escapes the field
defaulting and the whole result falls back to the six-dimension default. -/
theorem C8_amended_theorem :
    ∀ (fs : List (String × PyValue)) (dims : List CriticScore),
      parse_dims_field fs = .ok dims →
      ((dictGet fs "overall_score" = none →
          parse_data (.obj fs) = .ok (dims, 7,
            (dictGet fs "summary_critique").getD (.str "批判解析失败"),
            (dictGet fs "improvement_suggestions").getD (.arr []))) ∧
       (∀ v er, dictGet fs "overall_score" = some v → pyFloat v = .error er →
          parse_data (.obj fs) = .error er) ∧
       (∀ s v er, jsonLoads (extract_json_str s) = some (.obj fs) →
          dictGet fs "overall_score" = some v → pyFloat v = .error er →
          parse_critique_result s = get_default_critique_result)) := by
  intro fs dims hdims
  refine ⟨?_, ?_, ?_⟩
  · intro h0
    simp only [parse_data, hdims, h0, Option.getD_none]
    rfl
  · intro v er hv herr
    simp only [parse_data, hdims, hv, Option.getD_some, herr]
  · intro s v er hs hv herr
    simp only [parse_critique_result, hs, parse_data, hdims, hv, Option.getD_some, herr]

/-- Witness for C8 (amended) at a concrete payload whose `overall_score` is a
non-numeric string: the parse raises `ValueError`. -/
theorem C8_witness :
    parse_data (.obj [("overall_score", PyValue.str "x")]) = .error .valueError :=
  (C8_amended_theorem [("overall_score", PyValue.str "x")] [] rfl).2.1
    (.str "x") .valueError rfl rfl

lemma batch_pairs_ne {outputs : List ActorOutput} {agents : List Agent}
    {p : ActorOutput × Agent} (h : p ∈ batch_pairs outputs agents) :
    p.1.agent_id ≠ p.2.agent_id ∧ p.1 ∈ outputs ∧ p.2 ∈ agents := by
  simp only [batch_pairs, List.mem_flatten, List.mem_map] at h
  obtain ⟨l, ⟨o, ho, rfl⟩, hp⟩ := h
  simp only [List.mem_map, List.mem_filter] at hp
  obtain ⟨a, ⟨ha, hne⟩, rfl⟩ := hp
  exact ⟨by simpa [bne_iff_ne] using hne, ho, ha⟩

lemma run_pairs_sources (task : Task) (fault : ActorOutput → Agent → Option String)
    (elapsed : ActorOutput → Agent → ℚ) :
    ∀ (pairs : List (ActorOutput × Agent)) (st : CriticizerState) (r : CriticOutput),
      r ∈ (run_pairs task fault elapsed pairs st).1 →
      ∃ p, p ∈ pairs ∧ ∃ st2,
        r = (critique_output p.1 p.2 task none (fault p.1 p.2) (elapsed p.1 p.2) st2).1 := by
  intro pairs
  induction pairs with
  | nil => intro st r h; simp [run_pairs] at h
  | cons p ps ih =>
    intro st r h
    simp only [run_pairs, List.mem_cons] at h
    rcases h with h | h
    · exact ⟨p, by simp, st, h⟩
    · obtain ⟨q, hq, st2, hr⟩ := ih _ r h
      exact ⟨q, by simp [hq], st2, hr⟩

lemma critique_output_ids (ao : ActorOutput) (ca : Agent) (task : Task)
    (prev : Option (List CriticOutput)) (fault : Option String) (elapsed : ℚ)
    (st : CriticizerState) :
    (critique_output ao ca task prev fault elapsed st).1.critic_agent_id = ca.agent_id ∧
    (critique_output ao ca task prev fault elapsed st).1.target_output_id =
      ao.agent_id ++ "_" ++ toString ao.iteration := by
  cases fault <;> exact ⟨rfl, rfl⟩

/-- C9: the batch runner builds exactly the cross product minus self-pairs —
a content/evaluator pair sharing its agent id is never in the executed pair
list, and every returned result originates from a pair with distinct ids
(its critic id and target id expose the pair); the exception-discard filter
is vacuous because every call returns. -/
theorem C9_theorem :
    ∀ (outputs : List ActorOutput) (agents : List Agent) (task : Task)
      (fault : ActorOutput → Agent → Option String) (elapsed : ActorOutput → Agent → ℚ)
      (st : CriticizerState),
      (∀ o ∈ outputs, ∀ a ∈ agents, o.agent_id = a.agent_id →
        (o, a) ∉ batch_pairs outputs agents) ∧
      (∀ r ∈ (batch_critique outputs agents task fault elapsed st).1,
        ∃ o, o ∈ outputs ∧ ∃ a, a ∈ agents ∧ o.agent_id ≠ a.agent_id ∧
          r.critic_agent_id = a.agent_id ∧
          r.target_output_id = o.agent_id ++ "_" ++ toString o.iteration) := by
  intro outputs agents task fault elapsed st
  constructor
  · intro o _ a _ heq hmem
    exact (batch_pairs_ne hmem).1 heq
  · intro r hr
    simp only [batch_critique] at hr
    obtain ⟨p, hp, st2, hr2⟩ := run_pairs_sources task fault elapsed _ st r hr
    have hne := batch_pairs_ne hp
    have hids := critique_output_ids p.1 p.2 task none (fault p.1 p.2) (elapsed p.1 p.2) st2
    exact ⟨p.1, hne.2.1, p.2, hne.2.2, hne.1, by rw [hr2]; exact hids.1,
      by rw [hr2]; exact hids.2⟩

/-- Witness for C9: with content produced by `agent_a` and an evaluator list
containing an `agent_a` evaluator, the self-pair is not in the executed pair
list. -/
theorem C9_witness :
    (exActor, exAgentSame) ∉ batch_pairs [exActor] [exAgentSame, exAgent] :=
  (C9_theorem [exActor] [exAgentSame, exAgent] exTask (fun _ _ => none) (fun _ _ => 0)
    ⟨none, [], 0⟩).1 exActor (by simp) exAgentSame (by simp) rfl

lemma critique_output_satisfaction (ao : ActorOutput) (ca : Agent) (task : Task)
    (fault : Option String) (elapsed : ℚ) (st : CriticizerState) :
    (critique_output ao ca task none fault elapsed st).1.satisfaction_score = 7 ∨
    ((critique_output ao ca task none fault elapsed st).1.satisfaction_score = 5 ∧
     dictGet (critique_output ao ca task none fault elapsed st).1.metadata "error" =
       some (.bool true)) := by
  cases fault with
  | none => exact Or.inl rfl
  | some msg => exact Or.inr ⟨rfl, rfl⟩

/-- C10: the batch runner never passes prior evaluations to the per-pair
calls, so every result it returns has satisfaction exactly 7.0 (non-degraded
path) or 5.0 with the error flag (degraded path) — the
improvement-versus-previous-round computation is never exercised through the
batch interface. -/
theorem C10_theorem :
    ∀ (outputs : List ActorOutput) (agents : List Agent) (task : Task)
      (fault : ActorOutput → Agent → Option String) (elapsed : ActorOutput → Agent → ℚ)
      (st : CriticizerState),
      ∀ r ∈ (batch_critique outputs agents task fault elapsed st).1,
        r.satisfaction_score = 7 ∨
        (r.satisfaction_score = 5 ∧ dictGet r.metadata "error" = some (.bool true)) := by
  intro outputs agents task fault elapsed st r hr
  simp only [batch_critique] at hr
  obtain ⟨p, hp, st2, hr2⟩ := run_pairs_sources task fault elapsed _ st r hr
  rw [hr2]
  exact critique_output_satisfaction p.1 p.2 task (fault p.1 p.2) (elapsed p.1 p.2) st2

/-- State with a collaborator whose reply never parses, for the C10
witness. -/
def stBatch : CriticizerState := ⟨some (fun _ => Except.ok "x"), [], 0⟩

/-- The single result of the one-pair batch used in the C10 witness. -/
def rBatch : CriticOutput := (critique_output exActor exAgent exTask none none 0 stBatch).1

/-- Witness for C10: a concrete one-pair batch returns exactly one result
and its satisfaction score is the neutral 7.0. -/
theorem C10_witness :
    (batch_critique [exActor] [exAgent] exTask (fun _ _ => none) (fun _ _ => 0) stBatch).1.map
      CriticOutput.satisfaction_score = [7] := by
  have hres : (batch_critique [exActor] [exAgent] exTask (fun _ _ => none) (fun _ _ => 0)
      stBatch).1 = [rBatch] := rfl
  have h := C10_theorem [exActor] [exAgent] exTask (fun _ _ => none) (fun _ _ => 0) stBatch
    rBatch (by rw [hres]; simp)
  rcases h with h7 | ⟨h5, herr⟩
  · rw [hres, List.map_cons, List.map_nil, h7]
  · have hnone : dictGet rBatch.metadata "error" = none := rfl
    rw [hnone] at herr
    cases herr

end NagaCritic
